import Mathlib

/-!
# Exchange-based event-stream adapter (`amqp/amqp.go`)

A shallow embedding of the AMQP sink of the outboxer library: the dynamic
option bag, the option resolver `parseOptions` and the send protocol `Send`.

* A Go `interface{}` value is a `Value`; a `map[string]interface{}` is an
  association list read with `DynamicValues.get` (the first binding of a key
  is the one the map holds).
* A Go type assertion `data.(T)` either yields the value or panics with a
  `TypeAssertionError`; `parseOptions` is therefore an `Except`.
* The broker client is a parameter: a `Connection` answers `Channel()` and the
  `Channel` it hands out answers `ExchangeDeclare`, `Publish` and `Close`.
  `Send` returns its outcome together with the list of broker calls it made,
  each with the answer it got.
-/

namespace Outboxer

/-! ## Dynamic values -/

/-- Dynamic type of a non-nil Go value stored in an `interface{}`. -/
inductive GoType
  | string
  | bool
  | int
  | bytes
  deriving DecidableEq, Repr

/-- A Go `interface{}` value as carried by the option bag and the headers. -/
inductive Value
  | nil
  | bool (b : Bool)
  | int (i : Int)
  | str (s : String)
  | bytes (bs : List UInt8)
  deriving DecidableEq, Repr

/-- The dynamic type of a value; `none` for the nil interface. -/
def Value.goType : Value → Option GoType
  | .nil => none
  | .bool _ => some .bool
  | .int _ => some .int
  | .str _ => some .string
  | .bytes _ => some .bytes

/-- The run-time panic raised by a failed type assertion `data.(T)`. -/
structure TypeAssertionError where
  concrete : Option GoType
  asserted : GoType
  deriving DecidableEq, Repr

/-- The type assertion `data.(string)`. -/
def assertString (data : Value) : Except TypeAssertionError String :=
  match data with
  | .str s => .ok s
  | v => .error { concrete := v.goType, asserted := .string }

/-- The type assertion `data.(bool)`. -/
def assertBool (data : Value) : Except TypeAssertionError Bool :=
  match data with
  | .bool b => .ok b
  | v => .error { concrete := v.goType, asserted := .bool }

/-- The type `outboxer.DynamicValues`, a `map[string]interface{}`. -/
abbrev DynamicValues := List (String × Value)

/-- The map read `data, ok := opts[k]`: `none` when `ok` is false. -/
def DynamicValues.get (opts : DynamicValues) (k : String) : Option Value :=
  List.lookup k opts

/-- The map write `opts[k] = v`. -/
def DynamicValues.set (opts : DynamicValues) (k : String) (v : Value) : DynamicValues :=
  (k, v) :: opts.filter (fun p => p.1 != k)

/-! ## Errors -/

/-- A Go `error` value: one handed back by the broker client, or one built by
`fmt.Errorf`. -/
inductive Error
  | client (msg : String)
  | errorf (msg : String)
  deriving DecidableEq, Repr

/-- The method `Error()` of an error value: its text. -/
def Error.message : Error → String
  | .client msg => msg
  | .errorf msg => msg

/-- The call `fmt.Errorf(label + "%s", err)`: the verb `%s` formats an error
with its `Error()` text. -/
def fmt.Errorf (label : String) (err : Error) : Error :=
  .errorf (label ++ err.message)

/-! ## Messages and the broker client -/

/-- The message `outboxer.OutboxMessage`, as far as the sink reads it. -/
structure OutboxMessage where
  ID : Int
  Payload : List UInt8
  Options : DynamicValues
  Headers : DynamicValues
  deriving DecidableEq, Repr

/-- The delivery mode `amqp.Transient` of the client library
(`1=non-persistent, 2=persistent`). -/
def Transient : Nat := 1

/-- The fields of `amqp.Publishing` that `Send` sets. -/
structure Publishing where
  ContentType : String
  Body : List UInt8
  DeliveryMode : Nat
  Priority : Nat
  Headers : DynamicValues
  deriving DecidableEq, Repr

/-- A logical channel of the client: its identity and its answers to
`ExchangeDeclare`, `Publish` and `Close` (`none` is a nil error). -/
structure Channel where
  id : Nat
  ExchangeDeclare : String → String → Bool → Bool → Bool → Bool →
    Option DynamicValues → Option Error
  Publish : String → String → Bool → Bool → Publishing → Option Error
  Close : Option Error

/-- The shared connection: its answer to `Channel()`. -/
structure Connection where
  Channel : Except Error Outboxer.Channel

/-- One call into the broker client, with the answer it got. -/
inductive Event
  | Channel (res : Error ⊕ Nat)
  | ExchangeDeclare (ch : Nat) (name kind : String)
      (durable autoDelete internal noWait : Bool) (args : Option DynamicValues)
      (res : Option Error)
  | Publish (ch : Nat) (exchange key : String) (mandatory immediate : Bool)
      (msg : Publishing) (res : Option Error)
  | Close (ch : Nat) (res : Option Error)
  deriving DecidableEq, Repr

/-- How a call of `Send` ends: it returns an error (`none` is nil) or it
panics. -/
inductive Outcome
  | returned (err : Option Error)
  | panicked (p : TypeAssertionError)
  deriving DecidableEq, Repr

/-! ## The adapter -/

def defaultExchangeType : String := "topic"

/-- The exchange name option. -/
def ExchangeNameOption : String := "exchange.name"

/-- The exchange type option. -/
def ExchangeTypeOption : String := "exchange.type"

/-- The routing key option. -/
def RoutingKeyOption : String := "routing_key"

/-- The wrapper for the AMQP library. -/
structure AMQP where
  conn : Connection

structure options where
  exchange : String
  exchangeType : String
  routingKey : String
  passive : Bool
  durable : Bool
  autoDelete : Bool
  internal : Bool
  noWait : Bool
  deriving DecidableEq, Repr

/-- The resolver `parseOptions`: defaults, then one overwrite per key present
in the bag, in the order of the source; a type assertion that fails panics. -/
def parseOptions (opts : DynamicValues) : Except TypeAssertionError options := do
  let opt : options :=
    { exchange := "", exchangeType := defaultExchangeType, routingKey := "",
      passive := false, durable := true, autoDelete := false, internal := false,
      noWait := false }
  let opt ← match opts.get ExchangeNameOption with
    | some data => (assertString data).map (fun s => { opt with exchange := s })
    | none => pure opt
  let opt ← match opts.get ExchangeTypeOption with
    | some data => (assertString data).map (fun s => { opt with exchangeType := s })
    | none => pure opt
  let opt ← match opts.get "exchange.durable" with
    | some data => (assertBool data).map (fun b => { opt with durable := b })
    | none => pure opt
  let opt ← match opts.get "exchange.auto_delete" with
    | some data => (assertBool data).map (fun b => { opt with autoDelete := b })
    | none => pure opt
  let opt ← match opts.get "exchange.internal" with
    | some data => (assertBool data).map (fun b => { opt with internal := b })
    | none => pure opt
  let opt ← match opts.get "exchange.no_wait" with
    | some data => (assertBool data).map (fun b => { opt with noWait := b })
    | none => pure opt
  let opt ← match opts.get RoutingKeyOption with
    | some data => (assertString data).map (fun s => { opt with routingKey := s })
    | none => pure opt
  return opt

/-- The method `Send`: the outcome of the call and the broker calls it made.
The deferred `ch.Close()` runs last on every path that got a channel, the
panicking one included, and its result is dropped. -/
def Send (r : AMQP) (evt : OutboxMessage) : Outcome × List Event :=
  match r.conn.Channel with
  | .error err => (.returned (some err), [.Channel (.inl err)])
  | .ok ch =>
    let opened := Event.Channel (.inr ch.id)
    let closed := Event.Close ch.id ch.Close
    match parseOptions evt.Options with
    | .error p => (.panicked p, [opened, closed])
    | .ok opts =>
      let declareErr := ch.ExchangeDeclare opts.exchange opts.exchangeType opts.durable
        opts.autoDelete opts.internal opts.noWait none
      let declared := Event.ExchangeDeclare ch.id opts.exchange opts.exchangeType
        opts.durable opts.autoDelete opts.internal opts.noWait none declareErr
      match declareErr with
      | some err => (.returned (some (fmt.Errorf "exchange declare: " err)),
          [opened, declared, closed])
      | none =>
        let msg : Publishing :=
          { ContentType := "text/plain", Body := evt.Payload, DeliveryMode := Transient,
            Priority := 0, Headers := evt.Headers }
        let publishErr := ch.Publish opts.exchange opts.routingKey false false msg
        let published := Event.Publish ch.id opts.exchange opts.routingKey false false
          msg publishErr
        match publishErr with
        | some err => (.returned (some (fmt.Errorf "exchange publish: " err)),
            [opened, declared, published, closed])
        | none => (.returned none, [opened, declared, published, closed])

/-! ## Vocabulary of the specification -/

/-- The seven option keys the exchange-based adapter recognizes. -/
def recognizedKeys : List String :=
  ["exchange.name", "exchange.type", "routing_key", "exchange.durable",
   "exchange.auto_delete", "exchange.internal", "exchange.no_wait"]

/-- A key that is absent or holds a string. -/
def isStringOrAbsent : Option Value → Bool
  | none => true
  | some (.str _) => true
  | some _ => false

/-- A key that is absent or holds a bool. -/
def isBoolOrAbsent : Option Value → Bool
  | none => true
  | some (.bool _) => true
  | some _ => false

/-- Every recognized key of the bag is absent or holds a value of its type. -/
def wellTyped (opts : DynamicValues) : Bool :=
  isStringOrAbsent (opts.get "exchange.name") &&
  isStringOrAbsent (opts.get "exchange.type") &&
  isStringOrAbsent (opts.get "routing_key") &&
  isBoolOrAbsent (opts.get "exchange.durable") &&
  isBoolOrAbsent (opts.get "exchange.auto_delete") &&
  isBoolOrAbsent (opts.get "exchange.internal") &&
  isBoolOrAbsent (opts.get "exchange.no_wait")

/-- The string a key resolves to: the value present, else the default. -/
def stringOr (dflt : String) : Option Value → String
  | some (.str s) => s
  | _ => dflt

/-- The bool a key resolves to: the value present, else the default. -/
def boolOr (dflt : Bool) : Option Value → Bool
  | some (.bool b) => b
  | _ => dflt

/-- The structure the specification resolves a well-typed bag to, field by
field. -/
def resolved (opts : DynamicValues) : options :=
  { exchange := stringOr "" (opts.get "exchange.name"),
    exchangeType := stringOr "topic" (opts.get "exchange.type"),
    routingKey := stringOr "" (opts.get "routing_key"),
    passive := false,
    durable := boolOr true (opts.get "exchange.durable"),
    autoDelete := boolOr false (opts.get "exchange.auto_delete"),
    internal := boolOr false (opts.get "exchange.internal"),
    noWait := boolOr false (opts.get "exchange.no_wait") }

/-! ## Helpers for stating the send protocol, and concrete brokers and messages -/

/-- The message `Send` publishes for an event. -/
def publishingOf (evt : OutboxMessage) : Publishing :=
  { ContentType := "text/plain", Body := evt.Payload, DeliveryMode := Transient,
    Priority := 0, Headers := evt.Headers }

/-- The declare call `Send` makes on channel `ch` for resolved options `o`,
with the answer `res`. -/
def declareEvent (ch : Channel) (o : options) (res : Option Error) : Event :=
  .ExchangeDeclare ch.id o.exchange o.exchangeType o.durable o.autoDelete o.internal
    o.noWait none res

/-- The publish call `Send` makes on channel `ch` for resolved options `o`,
with the answer `res`. -/
def publishEvent (ch : Channel) (o : options) (evt : OutboxMessage) (res : Option Error) :
    Event :=
  .Publish ch.id o.exchange o.routingKey false false (publishingOf evt) res

/-- A channel on which every call succeeds. -/
def okChannel : Channel :=
  { id := 1, ExchangeDeclare := fun _ _ _ _ _ _ _ => none,
    Publish := fun _ _ _ _ _ => none, Close := none }

/-- An adapter over a connection that hands out `okChannel`. -/
def okAMQP : AMQP := { conn := { Channel := .ok okChannel } }

/-- The bytes of `"test payload"`. -/
def testPayload : List UInt8 := [116, 101, 115, 116, 32, 112, 97, 121, 108, 111, 97, 100]

/-- The message of `ExampleNewAMQP`. -/
def exampleMessage : OutboxMessage :=
  { ID := 1, Payload := testPayload,
    Options := [("exchange.name", .str "test"), ("exchange.type", .str "topic"),
      ("routing_key", .str "test.send")],
    Headers := [] }

/-- A message with a bare payload and an empty option bag. -/
def bareMessage : OutboxMessage :=
  { ID := 2, Payload := testPayload, Options := [], Headers := [] }

/-- A message whose key `exchange.durable` holds a string. -/
def malformedMessage : OutboxMessage :=
  { ID := 3, Payload := testPayload,
    Options := [("exchange.name", .str "test"), ("exchange.durable", .str "true")],
    Headers := [] }

/-- A channel whose declare is refused. -/
def refusingChannel : Channel :=
  { id := 1, ExchangeDeclare := fun _ _ _ _ _ _ _ => some (.client "access refused"),
    Publish := fun _ _ _ _ _ => none, Close := none }

/-- An adapter over a connection that hands out `refusingChannel`. -/
def refusingAMQP : AMQP := { conn := { Channel := .ok refusingChannel } }

/-- A successful channel acquisition. -/
def Event.isOpened : Event → Bool
  | .Channel (.inr _) => true
  | _ => false

/-- A call of `ExchangeDeclare`. -/
def Event.isDeclare : Event → Bool
  | .ExchangeDeclare _ _ _ _ _ _ _ _ _ => true
  | _ => false

/-- A call of `Publish`. -/
def Event.isPublish : Event → Bool
  | .Publish _ _ _ _ _ _ _ => true
  | _ => false

/-- A call of `Close`. -/
def Event.isClose : Event → Bool
  | .Close _ _ => true
  | _ => false

/-- A channel whose publish fails. -/
def droppingChannel : Channel :=
  { id := 1, ExchangeDeclare := fun _ _ _ _ _ _ _ => none,
    Publish := fun _ _ _ _ _ => some (.client "connection reset"), Close := none }

/-- An adapter over a connection that hands out `droppingChannel`. -/
def droppingAMQP : AMQP := { conn := { Channel := .ok droppingChannel } }

/-- An error text that starts with one of the two phase labels of `Send`. -/
def isLabelled (msg : String) : Bool :=
  "exchange declare: ".data.isPrefixOf msg.data ||
  "exchange publish: ".data.isPrefixOf msg.data

/-- An adapter over a connection that is closed: `Channel()` fails. -/
def closedAMQP : AMQP :=
  { conn := { Channel := .error (.client "channel/connection is not open") } }

/-! ## The option bag -/

theorem lookup_filter_ne (opts : DynamicValues) (k k1 : String) (h : k1 ≠ k) :
    List.lookup k1 (opts.filter (fun p => p.1 != k)) = List.lookup k1 opts := by
  induction opts with
  | nil => rfl
  | cons p rest ih =>
    obtain ⟨a, b⟩ := p
    by_cases ha : a = k
    · subst ha
      have hk : (k1 == a) = false := by simpa using h
      simp [List.filter_cons, List.lookup_cons, hk, ih]
    · by_cases hk : k1 = a
      · subst hk
        simp [List.filter_cons, List.lookup_cons, ha]
      · have hk1 : (k1 == a) = false := by simpa using hk
        simp [List.filter_cons, List.lookup_cons, ha, hk1, ih]

theorem get_set (opts : DynamicValues) (k k1 : String) (v : Value) :
    (opts.set k v).get k1 = if k1 = k then some v else opts.get k1 := by
  unfold DynamicValues.set DynamicValues.get
  by_cases h : k1 = k
  · subst h
    simp [List.lookup_cons]
  · have hb : (k1 == k) = false := by simpa using h
    rw [List.lookup_cons, hb, if_neg h]
    exact lookup_filter_ne opts k k1 h

theorem get_set_ne (opts : DynamicValues) (k k1 : String) (v : Value) (h : k1 ≠ k) :
    (opts.set k v).get k1 = opts.get k1 := by
  rw [get_set, if_neg h]

/-! ## The resolver -/

theorem parseOptions_resolved (opts : DynamicValues) (h : wellTyped opts = true) :
    parseOptions opts = .ok (resolved opts) := by
  unfold wellTyped at h
  simp only [Bool.and_eq_true] at h
  obtain ⟨⟨⟨⟨⟨⟨h1, h2⟩, h3⟩, h4⟩, h5⟩, h6⟩, h7⟩ := h
  unfold parseOptions resolved
  simp only [ExchangeNameOption, ExchangeTypeOption, RoutingKeyOption, defaultExchangeType]
  generalize opts.get "exchange.name" = x1 at *
  generalize opts.get "exchange.type" = x2 at *
  generalize opts.get "routing_key" = x3 at *
  generalize opts.get "exchange.durable" = x4 at *
  generalize opts.get "exchange.auto_delete" = x5 at *
  generalize opts.get "exchange.internal" = x6 at *
  generalize opts.get "exchange.no_wait" = x7 at *
  rcases x1 with _ | (_ | _ | _ | _ | _) <;> simp [isStringOrAbsent] at h1 <;>
  rcases x2 with _ | (_ | _ | _ | _ | _) <;> simp [isStringOrAbsent] at h2 <;>
  rcases x3 with _ | (_ | _ | _ | _ | _) <;> simp [isStringOrAbsent] at h3 <;>
  rcases x4 with _ | (_ | _ | _ | _ | _) <;> simp [isBoolOrAbsent] at h4 <;>
  rcases x5 with _ | (_ | _ | _ | _ | _) <;> simp [isBoolOrAbsent] at h5 <;>
  rcases x6 with _ | (_ | _ | _ | _ | _) <;> simp [isBoolOrAbsent] at h6 <;>
  rcases x7 with _ | (_ | _ | _ | _ | _) <;> simp [isBoolOrAbsent] at h7 <;>
  rfl

theorem parseOptions_malformed (opts : DynamicValues) (h : wellTyped opts = false) :
    ∃ p, parseOptions opts = .error p := by
  unfold wellTyped at h
  unfold parseOptions
  simp only [ExchangeNameOption, ExchangeTypeOption, RoutingKeyOption, defaultExchangeType]
  generalize opts.get "exchange.name" = x1 at *
  generalize opts.get "exchange.type" = x2 at *
  generalize opts.get "routing_key" = x3 at *
  generalize opts.get "exchange.durable" = x4 at *
  generalize opts.get "exchange.auto_delete" = x5 at *
  generalize opts.get "exchange.internal" = x6 at *
  generalize opts.get "exchange.no_wait" = x7 at *
  rcases x1 with _ | (_ | _ | _ | _ | _) <;> (try exact ⟨_, rfl⟩) <;>
  rcases x2 with _ | (_ | _ | _ | _ | _) <;> (try exact ⟨_, rfl⟩) <;>
  rcases x4 with _ | (_ | _ | _ | _ | _) <;> (try exact ⟨_, rfl⟩) <;>
  rcases x5 with _ | (_ | _ | _ | _ | _) <;> (try exact ⟨_, rfl⟩) <;>
  rcases x6 with _ | (_ | _ | _ | _ | _) <;> (try exact ⟨_, rfl⟩) <;>
  rcases x7 with _ | (_ | _ | _ | _ | _) <;> (try exact ⟨_, rfl⟩) <;>
  rcases x3 with _ | (_ | _ | _ | _ | _) <;> (try exact ⟨_, rfl⟩) <;>
  simp [isStringOrAbsent, isBoolOrAbsent] at h

theorem parseOptions_congr (a b : DynamicValues)
    (h : ∀ k ∈ recognizedKeys, a.get k = b.get k) : parseOptions a = parseOptions b := by
  unfold parseOptions
  simp only [ExchangeNameOption, ExchangeTypeOption, RoutingKeyOption]
  rw [h "exchange.name" (by simp [recognizedKeys]), h "exchange.type" (by simp [recognizedKeys]),
    h "routing_key" (by simp [recognizedKeys]), h "exchange.durable" (by simp [recognizedKeys]),
    h "exchange.auto_delete" (by simp [recognizedKeys]),
    h "exchange.internal" (by simp [recognizedKeys]),
    h "exchange.no_wait" (by simp [recognizedKeys])]

theorem Send_congr (r : AMQP) (a b : OutboxMessage) (hp : a.Payload = b.Payload)
    (hh : a.Headers = b.Headers) (ho : parseOptions a.Options = parseOptions b.Options) :
    Send r a = Send r b := by
  unfold Send
  rw [hp, hh, ho]

/-! ## The five ways a call of `Send` can go -/

theorem Send_channel_error (r : AMQP) (evt : OutboxMessage) (e : Error)
    (hch : r.conn.Channel = .error e) :
    Send r evt = (.returned (some e), [.Channel (.inl e)]) := by
  unfold Send
  rw [hch]

theorem Send_panic (r : AMQP) (evt : OutboxMessage) (ch : Channel) (p : TypeAssertionError)
    (hch : r.conn.Channel = .ok ch) (hp : parseOptions evt.Options = .error p) :
    Send r evt = (.panicked p, [.Channel (.inr ch.id), .Close ch.id ch.Close]) := by
  unfold Send
  rw [hch]
  simp only [hp]

theorem Send_declare_error (r : AMQP) (evt : OutboxMessage) (ch : Channel) (o : options)
    (e : Error) (hch : r.conn.Channel = .ok ch) (ho : parseOptions evt.Options = .ok o)
    (hd : ch.ExchangeDeclare o.exchange o.exchangeType o.durable o.autoDelete o.internal
      o.noWait none = some e) :
    Send r evt = (.returned (some (.errorf ("exchange declare: " ++ e.message))),
      [.Channel (.inr ch.id), declareEvent ch o (some e), .Close ch.id ch.Close]) := by
  unfold Send
  rw [hch]
  simp only [ho, hd, declareEvent, fmt.Errorf]

theorem Send_publish_error (r : AMQP) (evt : OutboxMessage) (ch : Channel) (o : options)
    (e : Error) (hch : r.conn.Channel = .ok ch) (ho : parseOptions evt.Options = .ok o)
    (hd : ch.ExchangeDeclare o.exchange o.exchangeType o.durable o.autoDelete o.internal
      o.noWait none = none)
    (hp : ch.Publish o.exchange o.routingKey false false (publishingOf evt) = some e) :
    Send r evt = (.returned (some (.errorf ("exchange publish: " ++ e.message))),
      [.Channel (.inr ch.id), declareEvent ch o none, publishEvent ch o evt (some e),
        .Close ch.id ch.Close]) := by
  simp only [publishingOf, Transient] at hp
  unfold Send
  rw [hch]
  simp only [ho, hd, hp, declareEvent, publishEvent, publishingOf, fmt.Errorf, Transient]

theorem Send_success (r : AMQP) (evt : OutboxMessage) (ch : Channel) (o : options)
    (hch : r.conn.Channel = .ok ch) (ho : parseOptions evt.Options = .ok o)
    (hd : ch.ExchangeDeclare o.exchange o.exchangeType o.durable o.autoDelete o.internal
      o.noWait none = none)
    (hp : ch.Publish o.exchange o.routingKey false false (publishingOf evt) = none) :
    Send r evt = (.returned none,
      [.Channel (.inr ch.id), declareEvent ch o none, publishEvent ch o evt none,
        .Close ch.id ch.Close]) := by
  simp only [publishingOf, Transient] at hp
  unfold Send
  rw [hch]
  simp only [ho, hd, hp, declareEvent, publishEvent, publishingOf, Transient]

/-- Every call of `Send` that got a channel goes one of four ways. -/
theorem Send_cases (r : AMQP) (evt : OutboxMessage) (ch : Channel)
    (hch : r.conn.Channel = .ok ch) :
    (∃ p, parseOptions evt.Options = .error p ∧
      Send r evt = (.panicked p, [.Channel (.inr ch.id), .Close ch.id ch.Close])) ∨
    (∃ o e, parseOptions evt.Options = .ok o ∧
      Send r evt = (.returned (some (.errorf ("exchange declare: " ++ e.message))),
        [.Channel (.inr ch.id), declareEvent ch o (some e), .Close ch.id ch.Close])) ∨
    (∃ o e, parseOptions evt.Options = .ok o ∧
      Send r evt = (.returned (some (.errorf ("exchange publish: " ++ e.message))),
        [.Channel (.inr ch.id), declareEvent ch o none, publishEvent ch o evt (some e),
          .Close ch.id ch.Close])) ∨
    (∃ o, parseOptions evt.Options = .ok o ∧
      Send r evt = (.returned none,
        [.Channel (.inr ch.id), declareEvent ch o none, publishEvent ch o evt none,
          .Close ch.id ch.Close])) := by
  cases ho : parseOptions evt.Options with
  | error p => exact Or.inl ⟨p, rfl, Send_panic r evt ch p hch ho⟩
  | ok o =>
    cases hd : ch.ExchangeDeclare o.exchange o.exchangeType o.durable o.autoDelete
        o.internal o.noWait none with
    | some e => exact Or.inr (Or.inl ⟨o, e, rfl, Send_declare_error r evt ch o e hch ho hd⟩)
    | none =>
      cases hp : ch.Publish o.exchange o.routingKey false false (publishingOf evt) with
      | some e =>
        exact Or.inr (Or.inr (Or.inl ⟨o, e, rfl, Send_publish_error r evt ch o e hch ho hd hp⟩))
      | none =>
        exact Or.inr (Or.inr (Or.inr ⟨o, rfl, Send_success r evt ch o hch ho hd hp⟩))

/-! ## C1: the happy path -/

/-- C1. For every payload, header mapping and well-typed option bag, when the
channel is acquired and the declare and the publish succeed, `Send` returns nil
and makes exactly four broker calls: the channel acquisition; one
`ExchangeDeclare` with the resolved name, type, durable, auto-delete, internal,
no-wait and nil arguments; one `Publish` on the same channel to the same
exchange under the resolved routing key, mandatory and immediate false, with
the payload as body, the message headers, content type `text/plain`, delivery
mode transient and priority 0; one `Close` of that channel. -/
theorem Send_happy_path (r : AMQP) (evt : OutboxMessage) (ch : Channel)
    (hwt : wellTyped evt.Options = true)
    (hch : r.conn.Channel = .ok ch)
    (hd : ch.ExchangeDeclare (stringOr "" (evt.Options.get "exchange.name"))
      (stringOr "topic" (evt.Options.get "exchange.type"))
      (boolOr true (evt.Options.get "exchange.durable"))
      (boolOr false (evt.Options.get "exchange.auto_delete"))
      (boolOr false (evt.Options.get "exchange.internal"))
      (boolOr false (evt.Options.get "exchange.no_wait")) none = none)
    (hp : ch.Publish (stringOr "" (evt.Options.get "exchange.name"))
      (stringOr "" (evt.Options.get "routing_key")) false false
      { ContentType := "text/plain", Body := evt.Payload, DeliveryMode := Transient,
        Priority := 0, Headers := evt.Headers } = none) :
    Send r evt = (.returned none,
      [.Channel (.inr ch.id),
       .ExchangeDeclare ch.id (stringOr "" (evt.Options.get "exchange.name"))
          (stringOr "topic" (evt.Options.get "exchange.type"))
          (boolOr true (evt.Options.get "exchange.durable"))
          (boolOr false (evt.Options.get "exchange.auto_delete"))
          (boolOr false (evt.Options.get "exchange.internal"))
          (boolOr false (evt.Options.get "exchange.no_wait")) none none,
       .Publish ch.id (stringOr "" (evt.Options.get "exchange.name"))
          (stringOr "" (evt.Options.get "routing_key")) false false
          { ContentType := "text/plain", Body := evt.Payload, DeliveryMode := Transient,
            Priority := 0, Headers := evt.Headers } none,
       .Close ch.id ch.Close]) :=
  Send_success r evt ch (resolved evt.Options) hch (parseOptions_resolved evt.Options hwt) hd hp

/-- C1 at the message of the example: declare `test` of type `topic`, durable,
then publish to `test` under `test.send` with body `test payload`. -/
theorem Send_happy_path_witness :
    wellTyped exampleMessage.Options = true ∧
    Send okAMQP exampleMessage = (.returned none,
      [.Channel (.inr 1),
       .ExchangeDeclare 1 "test" "topic" true false false false none none,
       .Publish 1 "test" "test.send" false false
          { ContentType := "text/plain", Body := testPayload, DeliveryMode := 1,
            Priority := 0, Headers := [] } none,
       .Close 1 none]) :=
  ⟨by decide, Send_happy_path okAMQP exampleMessage okChannel (by decide) rfl rfl rfl⟩

/-! ## C2: defaults on the empty bag -/

/-- C2. On the empty bag `parseOptions` returns exchange name `""`, type
`topic`, routing key `""`, durable true, auto-delete, internal and no-wait
false; and `Send` with an empty bag, once it has its channel, declares with
exactly those values and, when the declare succeeds, publishes to exchange `""`
under the empty routing key. -/
theorem parseOptions_empty_defaults :
    parseOptions [] = .ok
      { exchange := "", exchangeType := "topic", routingKey := "", passive := false,
        durable := true, autoDelete := false, internal := false, noWait := false } ∧
    ∀ (r : AMQP) (evt : OutboxMessage) (ch : Channel),
      evt.Options = [] → r.conn.Channel = .ok ch →
      (Send r evt).2 =
        [.Channel (.inr ch.id),
         .ExchangeDeclare ch.id "" "topic" true false false false none
            (ch.ExchangeDeclare "" "topic" true false false false none)] ++
        (if ch.ExchangeDeclare "" "topic" true false false false none = none then
          [.Publish ch.id "" "" false false
            { ContentType := "text/plain", Body := evt.Payload, DeliveryMode := Transient,
              Priority := 0, Headers := evt.Headers }
            (ch.Publish "" "" false false
              { ContentType := "text/plain", Body := evt.Payload, DeliveryMode := Transient,
                Priority := 0, Headers := evt.Headers })]
         else []) ++ [.Close ch.id ch.Close] := by
  have h0 : parseOptions [] = .ok
      { exchange := "", exchangeType := "topic", routingKey := "", passive := false,
        durable := true, autoDelete := false, internal := false, noWait := false } := rfl
  refine ⟨h0, ?_⟩
  intro r evt ch hopts hch
  unfold Send
  rw [hch, hopts]
  simp only [h0]
  cases hd : ch.ExchangeDeclare "" "topic" true false false false none with
  | some e => simp
  | none =>
    cases hp : ch.Publish "" "" false false
        { ContentType := "text/plain", Body := evt.Payload, DeliveryMode := Transient,
          Priority := 0, Headers := evt.Headers } with
    | some e => simp
    | none => simp

/-- C2 at a bare message on a broker where every call succeeds. -/
theorem parseOptions_empty_defaults_witness :
    (Send okAMQP bareMessage).2 =
      [.Channel (.inr 1),
       .ExchangeDeclare 1 "" "topic" true false false false none none,
       .Publish 1 "" "" false false
          { ContentType := "text/plain", Body := testPayload, DeliveryMode := 1,
            Priority := 0, Headers := [] } none,
       .Close 1 none] :=
  parseOptions_empty_defaults.2 okAMQP bareMessage okChannel rfl rfl

/-! ## C7: present keys overwrite defaults -/

/-- C7. For every well-typed bag `parseOptions` succeeds, and each field of its
result is the value of its key when the key is present and the adapter default
when it is absent; writing one key of the bag leaves the field resolved for
every other key as it was. -/
theorem parseOptions_field_by_field (opts : DynamicValues) (hwt : wellTyped opts = true) :
    ∃ o, parseOptions opts = .ok o ∧
      ((∀ s, opts.get "exchange.name" = some (.str s) → o.exchange = s) ∧
        (opts.get "exchange.name" = none → o.exchange = "")) ∧
      ((∀ s, opts.get "exchange.type" = some (.str s) → o.exchangeType = s) ∧
        (opts.get "exchange.type" = none → o.exchangeType = "topic")) ∧
      ((∀ s, opts.get "routing_key" = some (.str s) → o.routingKey = s) ∧
        (opts.get "routing_key" = none → o.routingKey = "")) ∧
      ((∀ b, opts.get "exchange.durable" = some (.bool b) → o.durable = b) ∧
        (opts.get "exchange.durable" = none → o.durable = true)) ∧
      ((∀ b, opts.get "exchange.auto_delete" = some (.bool b) → o.autoDelete = b) ∧
        (opts.get "exchange.auto_delete" = none → o.autoDelete = false)) ∧
      ((∀ b, opts.get "exchange.internal" = some (.bool b) → o.internal = b) ∧
        (opts.get "exchange.internal" = none → o.internal = false)) ∧
      ((∀ b, opts.get "exchange.no_wait" = some (.bool b) → o.noWait = b) ∧
        (opts.get "exchange.no_wait" = none → o.noWait = false)) ∧
      ∀ k v, wellTyped (opts.set k v) = true →
        ∃ o1, parseOptions (opts.set k v) = .ok o1 ∧
          (k ≠ "exchange.name" → o1.exchange = o.exchange) ∧
          (k ≠ "exchange.type" → o1.exchangeType = o.exchangeType) ∧
          (k ≠ "routing_key" → o1.routingKey = o.routingKey) ∧
          (k ≠ "exchange.durable" → o1.durable = o.durable) ∧
          (k ≠ "exchange.auto_delete" → o1.autoDelete = o.autoDelete) ∧
          (k ≠ "exchange.internal" → o1.internal = o.internal) ∧
          (k ≠ "exchange.no_wait" → o1.noWait = o.noWait) := by
  refine ⟨resolved opts, parseOptions_resolved opts hwt, ?_, ?_, ?_, ?_, ?_, ?_, ?_, ?_⟩
  · exact ⟨fun s h => by simp [resolved, stringOr, h], fun h => by simp [resolved, stringOr, h]⟩
  · exact ⟨fun s h => by simp [resolved, stringOr, h], fun h => by simp [resolved, stringOr, h]⟩
  · exact ⟨fun s h => by simp [resolved, stringOr, h], fun h => by simp [resolved, stringOr, h]⟩
  · exact ⟨fun s h => by simp [resolved, boolOr, h], fun h => by simp [resolved, boolOr, h]⟩
  · exact ⟨fun s h => by simp [resolved, boolOr, h], fun h => by simp [resolved, boolOr, h]⟩
  · exact ⟨fun s h => by simp [resolved, boolOr, h], fun h => by simp [resolved, boolOr, h]⟩
  · exact ⟨fun s h => by simp [resolved, boolOr, h], fun h => by simp [resolved, boolOr, h]⟩
  · intro k v hkv
    refine ⟨resolved (opts.set k v), parseOptions_resolved _ hkv, ?_, ?_, ?_, ?_, ?_, ?_, ?_⟩ <;>
    · intro hne
      simp only [resolved]
      rw [get_set_ne opts k _ v (Ne.symm hne)]

/-- C7 at the bag of the example: the three keys present are taken from the
bag, the four absent ones from the defaults. -/
theorem parseOptions_field_by_field_witness :
    wellTyped exampleMessage.Options = true ∧
    ∃ o, parseOptions exampleMessage.Options = .ok o ∧
      o.exchange = "test" ∧ o.exchangeType = "topic" ∧ o.routingKey = "test.send" ∧
      o.durable = true ∧ o.autoDelete = false ∧ o.internal = false ∧ o.noWait = false := by
  refine ⟨by decide, ?_⟩
  obtain ⟨o, ho, h1, h2, h3, h4, h5, h6, h7, _⟩ :=
    parseOptions_field_by_field exampleMessage.Options (by decide)
  exact ⟨o, ho, h1.1 "test" rfl, h2.1 "topic" rfl, h3.1 "test.send" rfl, h4.2 rfl, h5.2 rfl,
    h6.2 rfl, h7.2 rfl⟩

/-! ## C8: unrecognized keys are ignored -/

/-- C8. For every bag, every key outside the seven recognized ones and every
value, `parseOptions` gives the same result (the same options or the same
failure) with the key written into the bag as without it, and `Send` makes the
same broker calls and ends the same way. -/
theorem parseOptions_ignores_unrecognized (opts : DynamicValues) (k : String) (v : Value)
    (hk : k ∉ recognizedKeys) :
    parseOptions (opts.set k v) = parseOptions opts ∧
    ∀ (r : AMQP) (evt : OutboxMessage), evt.Options = opts →
      Send r { evt with Options := opts.set k v } = Send r evt := by
  have hp : parseOptions (opts.set k v) = parseOptions opts := by
    apply parseOptions_congr
    intro k1 hk1
    apply get_set_ne
    rintro rfl
    exact hk hk1
  refine ⟨hp, ?_⟩
  intro r evt hopts
  refine Send_congr r { evt with Options := opts.set k v } evt rfl rfl ?_
  simp only [hopts, hp]

/-- C8 at the bag of the example with an extra key `trace_id`. -/
theorem parseOptions_ignores_unrecognized_witness :
    "trace_id" ∉ recognizedKeys ∧
    parseOptions (exampleMessage.Options.set "trace_id" (.int 42)) =
      parseOptions exampleMessage.Options ∧
    Send okAMQP { exampleMessage with
        Options := exampleMessage.Options.set "trace_id" (.int 42) } =
      Send okAMQP exampleMessage :=
  ⟨by decide,
   (parseOptions_ignores_unrecognized exampleMessage.Options "trace_id" (.int 42)
      (by decide)).1,
   (parseOptions_ignores_unrecognized exampleMessage.Options "trace_id" (.int 42)
      (by decide)).2 okAMQP exampleMessage rfl⟩

/-! ## C3: a malformed option -/

/-- C3, as stated, fails: with `exchange.durable` holding a string, `Send` has
acquired a channel before the resolver runs, so its broker calls are the
channel acquisition and the close, not the empty sequence; and it ends in a
panic, not in a returned error. -/
theorem Send_malformed_touches_broker :
    wellTyped malformedMessage.Options = false ∧
    Send okAMQP malformedMessage =
      (.panicked { concrete := some .string, asserted := .bool },
        [.Channel (.inr 1), .Close 1 none]) ∧
    (Send okAMQP malformedMessage).2 ≠ [] := by
  decide

/-- C3, amended. For every bag in which a recognized key holds a value of the
wrong type the resolver yields no options at all (no default stands in for the
malformed key), and `Send` issues neither a declare nor a publish: when the
channel acquisition fails it returns that error after the one acquisition call,
and otherwise it panics with the type-assertion fault, its broker calls being
the channel acquisition and the close of that channel. -/
theorem Send_malformed (r : AMQP) (evt : OutboxMessage)
    (h : wellTyped evt.Options = false) :
    (∃ p, parseOptions evt.Options = .error p) ∧
    (∀ e, r.conn.Channel = .error e →
      Send r evt = (.returned (some e), [.Channel (.inl e)])) ∧
    (∀ ch, r.conn.Channel = .ok ch →
      ∃ p, parseOptions evt.Options = .error p ∧
        Send r evt = (.panicked p, [.Channel (.inr ch.id), .Close ch.id ch.Close])) := by
  obtain ⟨p, hp⟩ := parseOptions_malformed evt.Options h
  exact ⟨⟨p, hp⟩, fun e he => Send_channel_error r evt e he,
    fun ch hch => ⟨p, hp, Send_panic r evt ch p hch hp⟩⟩

/-- C3, amended, at the malformed message. -/
theorem Send_malformed_witness :
    wellTyped malformedMessage.Options = false ∧
    ∃ p, parseOptions malformedMessage.Options = .error p ∧
      Send okAMQP malformedMessage = (.panicked p, [.Channel (.inr 1), .Close 1 none]) :=
  ⟨by decide, (Send_malformed okAMQP malformedMessage (by decide)).2.2 okChannel rfl⟩

/-! ## C10: the required key -/

/-- C10, as stated, fails: the empty bag has no `exchange.name`, and `Send`
returns nil after acquiring a channel, declaring the exchange named `""`,
publishing to it and closing the channel. -/
theorem Send_absent_name_reaches_broker :
    bareMessage.Options.get "exchange.name" = none ∧
    Send okAMQP bareMessage = (.returned none,
      [.Channel (.inr 1),
       .ExchangeDeclare 1 "" "topic" true false false false none none,
       .Publish 1 "" "" false false
          { ContentType := "text/plain", Body := testPayload, DeliveryMode := 1,
            Priority := 0, Headers := [] } none,
       .Close 1 none]) := by
  decide

/-- C10, amended. For every bag without `exchange.name` whose recognized keys
are well-typed, the exchange name resolves to the empty string and `Send` goes
on to the broker: with its channel acquired it declares the exchange named
`""`, when that declare succeeds it publishes to the exchange `""`, and when
both succeed it returns nil. -/
theorem Send_absent_exchange_name (r : AMQP) (evt : OutboxMessage) (ch : Channel)
    (habs : evt.Options.get "exchange.name" = none)
    (hwt : wellTyped evt.Options = true)
    (hch : r.conn.Channel = .ok ch) :
    ∃ o, parseOptions evt.Options = .ok o ∧ o.exchange = "" ∧
      (Send r evt).2[1]? = some (.ExchangeDeclare ch.id "" o.exchangeType o.durable
        o.autoDelete o.internal o.noWait none
        (ch.ExchangeDeclare "" o.exchangeType o.durable o.autoDelete o.internal o.noWait
          none)) ∧
      (ch.ExchangeDeclare "" o.exchangeType o.durable o.autoDelete o.internal o.noWait
          none = none →
        (Send r evt).2[2]? = some (.Publish ch.id "" o.routingKey false false
          { ContentType := "text/plain", Body := evt.Payload, DeliveryMode := Transient,
            Priority := 0, Headers := evt.Headers }
          (ch.Publish "" o.routingKey false false
            { ContentType := "text/plain", Body := evt.Payload, DeliveryMode := Transient,
              Priority := 0, Headers := evt.Headers })) ∧
        (ch.Publish "" o.routingKey false false
            { ContentType := "text/plain", Body := evt.Payload, DeliveryMode := Transient,
              Priority := 0, Headers := evt.Headers } = none →
          (Send r evt).1 = .returned none)) := by
  have ho := parseOptions_resolved evt.Options hwt
  have hex : (resolved evt.Options).exchange = "" := by simp [resolved, stringOr, habs]
  refine ⟨resolved evt.Options, ho, hex, ?_, ?_⟩
  · unfold Send
    rw [hch]
    simp only [ho, hex]
    cases hd : ch.ExchangeDeclare "" (resolved evt.Options).exchangeType
        (resolved evt.Options).durable (resolved evt.Options).autoDelete
        (resolved evt.Options).internal (resolved evt.Options).noWait none with
    | some e => simp
    | none =>
      cases hp : ch.Publish "" (resolved evt.Options).routingKey false false
          { ContentType := "text/plain", Body := evt.Payload, DeliveryMode := Transient,
            Priority := 0, Headers := evt.Headers } with
      | some e => simp
      | none => simp
  · intro hd
    unfold Send
    rw [hch]
    simp only [ho, hex, hd]
    cases hp : ch.Publish "" (resolved evt.Options).routingKey false false
        { ContentType := "text/plain", Body := evt.Payload, DeliveryMode := Transient,
          Priority := 0, Headers := evt.Headers } with
    | some e => simp
    | none => simp

/-- C10, amended, at a bare message on a broker where every call succeeds. -/
theorem Send_absent_exchange_name_witness :
    bareMessage.Options.get "exchange.name" = none ∧
    wellTyped bareMessage.Options = true ∧
    ∃ o, parseOptions bareMessage.Options = .ok o ∧ o.exchange = "" ∧
      (Send okAMQP bareMessage).2[1]? = some (.ExchangeDeclare 1 "" o.exchangeType
        o.durable o.autoDelete o.internal o.noWait none none) := by
  refine ⟨rfl, by decide, ?_⟩
  obtain ⟨o, ho, hex, hd, _⟩ :=
    Send_absent_exchange_name okAMQP bareMessage okChannel rfl (by decide) rfl
  exact ⟨o, ho, hex, hd⟩

/-! ## C4: declare precedes publish -/

/-- C4. In every call of `Send`, whatever the broker answers, a `Publish` is
only ever issued after an `ExchangeDeclare` of the same exchange name on the
same channel that succeeded; and when a declare failed the call issues no
`Publish` at all. -/
theorem Send_declare_before_publish (r : AMQP) (evt : OutboxMessage) :
    (∀ (j : Nat) c ex key m i msg res,
      (Send r evt).2[j]? = some (Event.Publish c ex key m i msg res) →
      ∃ j0, j0 < j ∧ ∃ kind d a n w args,
        (Send r evt).2[j0]? = some (Event.ExchangeDeclare c ex kind d a n w args none)) ∧
    (∀ c name kind d a n w args err,
      Event.ExchangeDeclare c name kind d a n w args (some err) ∈ (Send r evt).2 →
      ∀ c1 ex key m i msg res, Event.Publish c1 ex key m i msg res ∉ (Send r evt).2) := by
  cases hch : r.conn.Channel with
  | error e =>
    rw [Send_channel_error r evt e hch]
    constructor
    · intro j c ex key m i msg res h
      rcases j with _ | j <;> simp at h
    · intro c name kind d a n w args err h
      simp at h
  | ok ch =>
    rcases Send_cases r evt ch hch with ⟨p, _, hs⟩ | ⟨o, e, _, hs⟩ | ⟨o, e, _, hs⟩ | ⟨o, _, hs⟩
    · rw [hs]
      constructor
      · intro j c ex key m i msg res h
        rcases j with _ | _ | j <;> simp at h
      · intro c name kind d a n w args err h
        simp at h
    · rw [hs]
      constructor
      · intro j c ex key m i msg res h
        rcases j with _ | _ | _ | j <;> simp [declareEvent] at h
      · intro c name kind d a n w args err _ c1 ex key m i msg res h
        simp [declareEvent] at h
    · rw [hs]
      constructor
      · intro j c ex key m i msg res h
        rcases j with _ | _ | _ | _ | j <;> simp [declareEvent, publishEvent] at h
        obtain ⟨rfl, rfl, _⟩ := h
        exact ⟨1, by decide, _, _, _, _, _, _, rfl⟩
      · intro c name kind d a n w args err h
        simp [declareEvent, publishEvent] at h
    · rw [hs]
      constructor
      · intro j c ex key m i msg res h
        rcases j with _ | _ | _ | _ | j <;> simp [declareEvent, publishEvent] at h
        obtain ⟨rfl, rfl, _⟩ := h
        exact ⟨1, by decide, _, _, _, _, _, _, rfl⟩
      · intro c name kind d a n w args err h
        simp [declareEvent, publishEvent] at h

/-- C4 at the message of the example: on a broker where every call succeeds the
publish at position 2 follows the successful declare of `test` at position 1,
and on a broker that refuses the declare no publish is issued. -/
theorem Send_declare_before_publish_witness :
    (∃ j0, j0 < 2 ∧ ∃ kind d a n w args,
      (Send okAMQP exampleMessage).2[j0]? =
        some (Event.ExchangeDeclare 1 "test" kind d a n w args none)) ∧
    (∀ c1 ex key m i msg res,
      Event.Publish c1 ex key m i msg res ∉ (Send refusingAMQP exampleMessage).2) :=
  ⟨(Send_declare_before_publish okAMQP exampleMessage).1 2 1 "test" "test.send" false false
      { ContentType := "text/plain", Body := testPayload, DeliveryMode := 1,
        Priority := 0, Headers := [] } none (by decide),
   (Send_declare_before_publish refusingAMQP exampleMessage).2 1 "test" "topic" true false
      false false none (.client "access refused") (by decide)⟩

/-! ## C5: the channel is released exactly once -/

/-- C5, as stated, fails: on a closed connection `Channel()` fails and `Send`
returns at once, so in that call no channel is opened, no `Close` is issued,
and the last broker call is the failed acquisition. -/
theorem Send_closed_connection_no_release :
    (Send closedAMQP exampleMessage).2.countP Event.isOpened = 0 ∧
    (Send closedAMQP exampleMessage).2.countP Event.isClose = 0 ∧
    (Send closedAMQP exampleMessage).2.getLast? =
      some (.Channel (.inl (.client "channel/connection is not open"))) := by
  decide

/-- C5, amended. For every call of `Send` that got its channel, however the
call ends (success, declare failure, publish failure, or a panic of the
resolver), exactly one channel is opened, exactly one `Close` is issued, that
`Close` is on the channel opened, and it is the last broker call; and for
every call whose channel acquisition fails, the failed acquisition is the only
broker call: no channel is opened and no `Close` is issued. -/
theorem Send_releases_channel_once (r : AMQP) (evt : OutboxMessage) :
    (∀ ch, r.conn.Channel = .ok ch →
      (Send r evt).2.countP Event.isOpened = 1 ∧
      (Send r evt).2.head? = some (.Channel (.inr ch.id)) ∧
      (Send r evt).2.countP Event.isClose = 1 ∧
      (Send r evt).2.getLast? = some (.Close ch.id ch.Close)) ∧
    (∀ e, r.conn.Channel = .error e →
      (Send r evt).2 = [.Channel (.inl e)] ∧
      (Send r evt).2.countP Event.isOpened = 0 ∧
      (Send r evt).2.countP Event.isClose = 0) := by
  constructor
  · intro ch hch
    rcases Send_cases r evt ch hch with
      ⟨p, _, hs⟩ | ⟨o, e, _, hs⟩ | ⟨o, e, _, hs⟩ | ⟨o, _, hs⟩ <;>
    · rw [hs]
      simp [List.countP_cons, Event.isOpened, Event.isClose, declareEvent, publishEvent]
  · intro e he
    rw [Send_channel_error r evt e he]
    simp [List.countP_cons, Event.isOpened, Event.isClose]

/-- C5, amended, on a broker that refuses the declare and on a closed
connection. -/
theorem Send_releases_channel_once_witness :
    ((Send refusingAMQP exampleMessage).2.countP Event.isOpened = 1 ∧
      (Send refusingAMQP exampleMessage).2.head? = some (.Channel (.inr 1)) ∧
      (Send refusingAMQP exampleMessage).2.countP Event.isClose = 1 ∧
      (Send refusingAMQP exampleMessage).2.getLast? = some (.Close 1 none)) ∧
    ((Send closedAMQP bareMessage).2 =
        [.Channel (.inl (.client "channel/connection is not open"))] ∧
      (Send closedAMQP bareMessage).2.countP Event.isOpened = 0 ∧
      (Send closedAMQP bareMessage).2.countP Event.isClose = 0) :=
  ⟨(Send_releases_channel_once refusingAMQP exampleMessage).1 refusingChannel rfl,
   (Send_releases_channel_once closedAMQP bareMessage).2
      (.client "channel/connection is not open") rfl⟩

/-! ## C6: phase-labelled errors -/

theorem label_ne (a b : String) : "exchange declare: " ++ a ≠ "exchange publish: " ++ b := by
  intro h
  have h1 := congrArg String.data h
  simp only [String.data_append] at h1
  have h2 := congrArg (fun l => l.take 18) h1
  simp only [] at h2
  rw [List.take_left' (by rfl), List.take_left' (by rfl)] at h2
  revert h2
  decide

/-- C6. For every well-typed message whose channel was acquired: when the
declare fails with cause `e`, `Send` returns the error with text
`exchange declare: ` followed by the text of `e`, after exactly one declare and
no publish; when the declare succeeds and the publish fails with cause `e`,
`Send` returns the error with text `exchange publish: ` followed by the text
of `e`, after exactly one declare and exactly one publish; and for every pair
of causes the two errors have different texts. -/
theorem Send_phase_errors (r : AMQP) (evt : OutboxMessage) (ch : Channel)
    (hwt : wellTyped evt.Options = true) (hch : r.conn.Channel = .ok ch) :
    (∀ e, ch.ExchangeDeclare (resolved evt.Options).exchange
        (resolved evt.Options).exchangeType (resolved evt.Options).durable
        (resolved evt.Options).autoDelete (resolved evt.Options).internal
        (resolved evt.Options).noWait none = some e →
      (∃ err, (Send r evt).1 = .returned (some err) ∧
        err.message = "exchange declare: " ++ e.message) ∧
      (Send r evt).2.countP Event.isDeclare = 1 ∧
      (Send r evt).2.countP Event.isPublish = 0) ∧
    (∀ e, ch.ExchangeDeclare (resolved evt.Options).exchange
        (resolved evt.Options).exchangeType (resolved evt.Options).durable
        (resolved evt.Options).autoDelete (resolved evt.Options).internal
        (resolved evt.Options).noWait none = none →
      ch.Publish (resolved evt.Options).exchange (resolved evt.Options).routingKey false false
        { ContentType := "text/plain", Body := evt.Payload, DeliveryMode := Transient,
          Priority := 0, Headers := evt.Headers } = some e →
      (∃ err, (Send r evt).1 = .returned (some err) ∧
        err.message = "exchange publish: " ++ e.message) ∧
      (Send r evt).2.countP Event.isDeclare = 1 ∧
      (Send r evt).2.countP Event.isPublish = 1) ∧
    (∀ e1 e2 : Error,
      (fmt.Errorf "exchange declare: " e1).message ≠
        (fmt.Errorf "exchange publish: " e2).message) := by
  have ho := parseOptions_resolved evt.Options hwt
  refine ⟨?_, ?_, ?_⟩
  · intro e hd
    rw [Send_declare_error r evt ch _ e hch ho hd]
    exact ⟨⟨_, rfl, rfl⟩, by
      simp [List.countP_cons, Event.isDeclare, Event.isPublish, declareEvent]⟩
  · intro e hd hp
    rw [Send_publish_error r evt ch _ e hch ho hd hp]
    exact ⟨⟨_, rfl, rfl⟩, by
      simp [List.countP_cons, Event.isDeclare, Event.isPublish, declareEvent, publishEvent]⟩
  · intro e1 e2
    exact label_ne e1.message e2.message

/-- C6 at the message of the example, on a broker that refuses the declare and
on one that fails the publish. -/
theorem Send_phase_errors_witness :
    (Send refusingAMQP exampleMessage).1 =
      .returned (some (.errorf "exchange declare: access refused")) ∧
    (Send droppingAMQP exampleMessage).1 =
      .returned (some (.errorf "exchange publish: connection reset")) ∧
    (Send droppingAMQP exampleMessage).2.countP Event.isPublish = 1 := by
  obtain ⟨h1, _, _⟩ :=
    Send_phase_errors refusingAMQP exampleMessage refusingChannel (by decide) rfl
  obtain ⟨_, h2, _⟩ :=
    Send_phase_errors droppingAMQP exampleMessage droppingChannel (by decide) rfl
  have h3 := h2 (.client "connection reset") rfl rfl
  exact ⟨by decide, by decide, h3.2.2⟩

/-! ## C9: the channel acquisition error -/

/-- C9 fails on the code: when `Channel()` fails, `Send` returns the client
error itself, which carries neither the declare nor the publish label. -/
theorem Send_channel_error_unlabelled :
    Send closedAMQP exampleMessage =
      (.returned (some (.client "channel/connection is not open")),
        [.Channel (.inl (.client "channel/connection is not open"))]) ∧
    closedAMQP.conn.Channel = .error (.client "channel/connection is not open") ∧
    isLabelled "channel/connection is not open" = false := by
  refine ⟨by decide, rfl, by decide⟩

end Outboxer
